import Mathlib

/-!
Verification of the DDK syscall layer (`src/kernel/syscalls/syscalls_ddk.cpp`).

Each syscall is embedded as a pure function over an `Env` recording the
outcomes of every external call the syscall can make (resource validation,
handle-table lookups, dispatcher operations, page commit, user copies,
display/IO-bitmap calls).  The syscall returns its status together with a
trace of the external calls it actually issued, in order, so that claims
about side effects ("no handle created", "no hardware call issued") become
statements about the trace.

Architecture-conditional bodies (`#if ARCH_X86`) are embedded as two
separate functions, one per preprocessor branch.
-/

set_option autoImplicit false
set_option linter.unusedVariables false

namespace Zircon

/-! ## Status codes (values of `zx_status_t` from the system headers) -/

def ZX_OK : Int := 0
def ZX_ERR_NOT_SUPPORTED : Int := -2
def ZX_ERR_NO_MEMORY : Int := -4
def ZX_ERR_INVALID_ARGS : Int := -10
def ZX_ERR_BAD_HANDLE : Int := -11
def ZX_ERR_NOT_FOUND : Int := -25
def ZX_ERR_ACCESS_DENIED : Int := -30

def ZX_RSRC_KIND_ROOT : Nat := 0

/-- Modelled from the spec: page granularity ("size rounded up to the page
granularity", "alignment_log2 defaults to page-size alignment").  The page
size constants live in architecture headers outside the excerpt; both
supported architectures use 4 KiB pages. -/
def PAGE_SIZE : Nat := 4096

def PAGE_SIZE_SHIFT : Nat := 12

/-- Modelled from the spec: the `ROUNDUP_PAGE_SIZE` macro from the VM
headers (outside the excerpt); the spec describes it as rounding a size up
to the page granularity. -/
def ROUNDUP_PAGE_SIZE (n : Nat) : Nat :=
  ((n + PAGE_SIZE - 1) / PAGE_SIZE) * PAGE_SIZE

/-- The C return of a negative `zx_status_t` from a function whose return
type is `uint64_t` (as in `sys_acpi_uefi_rsdp`) converts modulo 2^64. -/
def toU64 (i : Int) : Nat := (i % (2 ^ 64 : Int)).toNat

/-! ## Effect traces

One constructor per external call a syscall in this file can issue. -/

inductive Event where
  /-- `validate_resource(handle, kind)` -/
  | validate (h kind : Nat)
  /-- `validate_resource_mmio(handle, base, size)` -/
  | validateMmio (h base size : Nat)
  /-- `ProcessDispatcher::GetDispatcher(handle, &out)` handle-table lookup -/
  | getDispatcher (h : Nat)
  /-- `InterruptEventDispatcher::Create` -/
  | interruptEventCreate
  /-- `interrupt->Bind(slot, vector, options)` -/
  | dispBind (h slot vector options : Nat)
  /-- `interrupt->Unbind(slot)` -/
  | dispUnbind (h slot : Nat)
  /-- `interrupt->WaitForInterrupt(slots)` -/
  | dispWait (h : Nat)
  /-- `interrupt->WaitForInterruptWithTimeStamp(slot, timestamp)` -/
  | dispWaitTs (h : Nat)
  /-- `interrupt->UserSignal(slot, timestamp)` -/
  | dispUserSignal (h slot ts : Nat)
  /-- `VmObjectPaged::Create(PMM_ALLOC_FLAG_ANY, size, &vmo)` -/
  | vmoPagedCreate (size : Nat)
  /-- `vmo->CommitRangeContiguous(0, size, &committed, align_log2)` -/
  | commitContiguous (size align : Nat)
  /-- `VmObjectPhysical::Create(paddr, size, &vmo)` -/
  | vmoPhysCreate (paddr size : Nat)
  /-- `VmObjectDispatcher::Create(vmo, &dispatcher, &rights)` -/
  | vmoDispCreate
  /-- `Handle::Make(dispatcher, rights)` -/
  | handleMake
  /-- `ptr.copy_to_user(v)` -/
  | copyOut (v : Nat)
  /-- `up->AddHandle(handle)` installing handle value `v` -/
  | addHandle (v : Nat)
  /-- `vaddr_to_paddr(vaddr)` -/
  | vaddrToPaddr (v : Nat)
  /-- `udisplay_set_framebuffer(paddr, len)` -/
  | udisplaySetFb (paddr : Int) (len : Nat)
  /-- `udisplay_set_framebuffer_vmo(vmo)` -/
  | udisplaySetFbVmo
  /-- `udisplay_set_display_info(&di)` with the four geometry fields -/
  | udisplaySetInfo (format width height stride : Nat)
  /-- `IoBitmap::GetCurrent().SetIoBitmap(io_addr, len, bit)` -/
  | setIoBitmap (addr len bit : Nat)
  deriving DecidableEq

/-- Events that are resource-validation calls. -/
def Event.isValidate : Event → Bool
  | .validate _ _ => true
  | .validateMmio _ _ _ => true
  | _ => false

/-- Events that create or install a handle. -/
def Event.isHandleCreation : Event → Bool
  | .handleMake => true
  | .addHandle _ => true
  | _ => false

/-- Events that mutate kernel state or issue a hardware call; resource
validation, handle-table lookup and address translation are read-only. -/
def Event.isMutation : Event → Bool
  | .validate _ _ => false
  | .validateMmio _ _ _ => false
  | .getDispatcher _ => false
  | .vaddrToPaddr _ => false
  | _ => true

/-- Events that involve the page allocator (creation of a paged VM object
or a page commit). -/
def Event.isPageAlloc : Event → Bool
  | .commitContiguous _ _ => true
  | .vmoPagedCreate _ => true
  | _ => false

/-! ## Environment: outcomes of external calls

The syscalls in this file only branch on the status an external call
returns (plus, for `CommitRangeContiguous`, the committed byte count), so
an environment of result-valued functions determines their behaviour. -/

structure Env where
  validate_resource : Nat → Nat → Int
  validate_resource_mmio : Nat → Nat → Nat → Int
  /-- status of `GetDispatcher<InterruptDispatcher>(handle, ...)` -/
  get_interrupt_dispatcher : Nat → Int
  /-- status of `GetDispatcher<VmObjectDispatcher>(handle, ...)` -/
  get_vmo_dispatcher : Nat → Int
  interrupt_event_create : Int
  /-- result of `interrupt->Bind(slot, vector, options)` on the dispatcher
  named by the handle -/
  interrupt_bind : Nat → Nat → Nat → Nat → Int
  interrupt_unbind : Nat → Nat → Int
  /-- `(status, slots)` from `interrupt->WaitForInterrupt` -/
  interrupt_wait : Nat → Int × Nat
  /-- `(status, slot, timestamp)` from `WaitForInterruptWithTimeStamp` -/
  interrupt_wait_ts : Nat → Int × Nat × Nat
  interrupt_user_signal : Nat → Nat → Nat → Int
  vmo_paged_create : Nat → Int
  /-- `(status, committed)` from `CommitRangeContiguous(0, size, ...)` -/
  commit_range_contiguous : Nat → Nat → Int × Nat
  vmo_physical_create : Nat → Nat → Int
  vmo_dispatcher_create : Int
  handle_make_ok : Bool
  map_handle_to_value : Nat
  vaddr_to_paddr : Nat → Int
  udisplay_set_framebuffer_vmo : Int
  set_io_bitmap : Nat → Nat → Nat → Int
  bootloader_fb_base : Nat
  bootloader_fb_format : Nat
  bootloader_fb_width : Nat
  bootloader_fb_height : Nat
  bootloader_fb_stride : Nat
  bootloader_acpi_rsdp : Nat

/-! ## Syscall embeddings -/

/-- `sys_interrupt_create(hrsrc, options, out_handle)`; `copy_out` is the
outcome of `out_handle.copy_to_user`. -/
def sys_interrupt_create (env : Env) (hrsrc options : Nat) (copy_out : Int) :
    Int × List Event :=
  if options ≠ 0 then (ZX_ERR_INVALID_ARGS, [])
  else
    let status := env.validate_resource hrsrc ZX_RSRC_KIND_ROOT
    let t0 := [Event.validate hrsrc ZX_RSRC_KIND_ROOT]
    if status < 0 then (status, t0)
    else
      let result := env.interrupt_event_create
      let t1 := t0 ++ [Event.interruptEventCreate]
      if result ≠ ZX_OK then (result, t1)
      else
        let hv := env.map_handle_to_value
        let t2 := t1 ++ [Event.handleMake, Event.copyOut hv]
        if copy_out ≠ ZX_OK then (copy_out, t2)
        else (ZX_OK, t2 ++ [Event.addHandle hv])

/-- `sys_interrupt_bind(handle, slot, hrsrc, vector, options)`. -/
def sys_interrupt_bind (env : Env) (handle slot hrsrc vector options : Nat) :
    Int × List Event :=
  let status := env.validate_resource hrsrc ZX_RSRC_KIND_ROOT
  let t0 := [Event.validate hrsrc ZX_RSRC_KIND_ROOT]
  if status < 0 then (status, t0)
  else
    let s := env.get_interrupt_dispatcher handle
    let t1 := t0 ++ [Event.getDispatcher handle]
    if s ≠ ZX_OK then (s, t1)
    else (env.interrupt_bind handle slot vector options,
          t1 ++ [Event.dispBind handle slot vector options])

/-- `sys_interrupt_unbind(handle, slot)`. -/
def sys_interrupt_unbind (env : Env) (handle slot : Nat) : Int × List Event :=
  let s := env.get_interrupt_dispatcher handle
  let t0 := [Event.getDispatcher handle]
  if s ≠ ZX_OK then (s, t0)
  else (env.interrupt_unbind handle slot, t0 ++ [Event.dispUnbind handle slot])

/-- `sys_interrupt_complete(handle_value)`: deprecated, only resolves the
handle and returns the lookup status. -/
def sys_interrupt_complete (env : Env) (handle_value : Nat) : Int × List Event :=
  (env.get_interrupt_dispatcher handle_value, [Event.getDispatcher handle_value])

/-- `sys_interrupt_wait(handle, out_slots)`; `out_slots_null` records
whether the user passed a null out-pointer, `copy_slots` the outcome of
`out_slots.copy_to_user`. -/
def sys_interrupt_wait (env : Env) (handle : Nat) (out_slots_null : Bool)
    (copy_slots : Int) : Int × List Event :=
  let s := env.get_interrupt_dispatcher handle
  let t0 := [Event.getDispatcher handle]
  if s ≠ ZX_OK then (s, t0)
  else
    let r := env.interrupt_wait handle
    let t1 := t0 ++ [Event.dispWait handle]
    if r.1 = ZX_OK ∧ ¬ out_slots_null then (copy_slots, t1 ++ [Event.copyOut r.2])
    else (r.1, t1)

/-- `sys_interrupt_wait_with_timestamp(handle, out_slot, out_timestamp)`. -/
def sys_interrupt_wait_with_timestamp (env : Env) (handle : Nat)
    (out_slot_null : Bool) (copy_slot : Int)
    (out_ts_null : Bool) (copy_ts : Int) : Int × List Event :=
  let s := env.get_interrupt_dispatcher handle
  let t0 := [Event.getDispatcher handle]
  if s ≠ ZX_OK then (s, t0)
  else
    let r := env.interrupt_wait_ts handle
    let t1 := t0 ++ [Event.dispWaitTs handle]
    let p :=
      if r.1 = ZX_OK ∧ ¬ out_slot_null then (copy_slot, t1 ++ [Event.copyOut r.2.1])
      else (r.1, t1)
    if p.1 = ZX_OK ∧ ¬ out_ts_null then (copy_ts, p.2 ++ [Event.copyOut r.2.2])
    else p

/-- `sys_interrupt_signal(handle, slot, timestamp)`. -/
def sys_interrupt_signal (env : Env) (handle slot ts : Nat) : Int × List Event :=
  let s := env.get_interrupt_dispatcher handle
  let t0 := [Event.getDispatcher handle]
  if s ≠ ZX_OK then (s, t0)
  else (env.interrupt_user_signal handle slot ts,
        t0 ++ [Event.dispUserSignal handle slot ts])

/-- `sys_vmo_create_contiguous(hrsrc, size, alignment_log2, _out)`. -/
def sys_vmo_create_contiguous (env : Env) (hrsrc size alignment_log2 : Nat)
    (copy_out : Int) : Int × List Event :=
  if size = 0 then (ZX_ERR_INVALID_ARGS, [])
  else
    let alignment_log2 := if alignment_log2 = 0 then PAGE_SIZE_SHIFT else alignment_log2
    if alignment_log2 < PAGE_SIZE_SHIFT ∨ 8 * 8 ≤ alignment_log2 then
      (ZX_ERR_INVALID_ARGS, [])
    else
      let status := env.validate_resource hrsrc ZX_RSRC_KIND_ROOT
      let t0 := [Event.validate hrsrc ZX_RSRC_KIND_ROOT]
      if status < 0 then (status, t0)
      else
        let size := ROUNDUP_PAGE_SIZE size
        let s1 := env.vmo_paged_create size
        let t1 := t0 ++ [Event.vmoPagedCreate size]
        if s1 ≠ ZX_OK then (s1, t1)
        else
          let align_log2_arg := alignment_log2 % 256
          let c := env.commit_range_contiguous size align_log2_arg
          let t2 := t1 ++ [Event.commitContiguous size align_log2_arg]
          if c.1 < 0 ∨ c.2 < size then (ZX_ERR_NO_MEMORY, t2)
          else
            let r := env.vmo_dispatcher_create
            let t3 := t2 ++ [Event.vmoDispCreate]
            if r ≠ ZX_OK then (r, t3)
            else
              let t4 := t3 ++ [Event.handleMake]
              if ¬ env.handle_make_ok then (ZX_ERR_NO_MEMORY, t4)
              else
                let hv := env.map_handle_to_value
                let t5 := t4 ++ [Event.copyOut hv]
                if copy_out ≠ ZX_OK then (copy_out, t5)
                else (ZX_OK, t5 ++ [Event.addHandle hv])

/-- `sys_vmo_create_physical(hrsrc, paddr, size, _out)`. -/
def sys_vmo_create_physical (env : Env) (hrsrc paddr size : Nat)
    (copy_out : Int) : Int × List Event :=
  let status := env.validate_resource_mmio hrsrc paddr size
  let t0 := [Event.validateMmio hrsrc paddr size]
  if status < 0 then (status, t0)
  else
    let size := ROUNDUP_PAGE_SIZE size
    let r := env.vmo_physical_create paddr size
    let t1 := t0 ++ [Event.vmoPhysCreate paddr size]
    if r ≠ ZX_OK then (r, t1)
    else
      let r2 := env.vmo_dispatcher_create
      let t2 := t1 ++ [Event.vmoDispCreate]
      if r2 ≠ ZX_OK then (r2, t2)
      else
        let t3 := t2 ++ [Event.handleMake]
        if ¬ env.handle_make_ok then (ZX_ERR_NO_MEMORY, t3)
        else
          let hv := env.map_handle_to_value
          let t4 := t3 ++ [Event.copyOut hv]
          if copy_out ≠ ZX_OK then (copy_out, t4)
          else (ZX_OK, t4 ++ [Event.addHandle hv])

/-- `sys_bootloader_fb_get_info`, `ARCH_X86` branch; the four `copy_*`
arguments are the outcomes of the four `copy_to_user` calls. -/
def sys_bootloader_fb_get_info_x86 (env : Env)
    (copy_format copy_width copy_height copy_stride : Int) : Int × List Event :=
  if env.bootloader_fb_base = 0 then (ZX_ERR_INVALID_ARGS, [])
  else
    let t1 := [Event.copyOut env.bootloader_fb_format]
    if copy_format ≠ ZX_OK then (copy_format, t1)
    else
      let t2 := t1 ++ [Event.copyOut env.bootloader_fb_width]
      if copy_width ≠ ZX_OK then (copy_width, t2)
      else
        let t3 := t2 ++ [Event.copyOut env.bootloader_fb_height]
        if copy_height ≠ ZX_OK then (copy_height, t3)
        else
          let t4 := t3 ++ [Event.copyOut env.bootloader_fb_stride]
          if copy_stride ≠ ZX_OK then (copy_stride, t4)
          else (ZX_OK, t4)

/-- `sys_bootloader_fb_get_info`, non-x86 branch. -/
def sys_bootloader_fb_get_info_nonx86 (_env : Env) : Int × List Event :=
  (ZX_ERR_NOT_SUPPORTED, [])

/-- `sys_set_framebuffer(hrsrc, vaddr, len, format, width, height, stride)`. -/
def sys_set_framebuffer (env : Env)
    (hrsrc vaddr len format width height stride : Nat) : Int × List Event :=
  let status := env.validate_resource hrsrc ZX_RSRC_KIND_ROOT
  let t0 := [Event.validate hrsrc ZX_RSRC_KIND_ROOT]
  if status < 0 then (status, t0)
  else
    let paddr := env.vaddr_to_paddr vaddr
    (ZX_OK, t0 ++ [Event.vaddrToPaddr vaddr, Event.udisplaySetFb paddr len,
                   Event.udisplaySetInfo format width height stride])

/-- `sys_set_framebuffer_vmo(hrsrc, vmo_handle, len, format, width, height,
stride)`. -/
def sys_set_framebuffer_vmo (env : Env)
    (hrsrc vmo_handle len format width height stride : Nat) : Int × List Event :=
  let status := env.validate_resource hrsrc ZX_RSRC_KIND_ROOT
  let t0 := [Event.validate hrsrc ZX_RSRC_KIND_ROOT]
  if status < 0 then (status, t0)
  else
    let s1 := env.get_vmo_dispatcher vmo_handle
    let t1 := t0 ++ [Event.getDispatcher vmo_handle]
    if s1 ≠ ZX_OK then (s1, t1)
    else
      let s2 := env.udisplay_set_framebuffer_vmo
      let t2 := t1 ++ [Event.udisplaySetFbVmo]
      if s2 ≠ ZX_OK then (s2, t2)
      else (ZX_OK, t2 ++ [Event.udisplaySetInfo format width height stride])

/-- `sys_mmap_device_io(hrsrc, io_addr, len)`, `ARCH_X86` branch. -/
def sys_mmap_device_io_x86 (env : Env) (hrsrc io_addr len : Nat) :
    Int × List Event :=
  let status := env.validate_resource hrsrc ZX_RSRC_KIND_ROOT
  let t0 := [Event.validate hrsrc ZX_RSRC_KIND_ROOT]
  if status < 0 then (status, t0)
  else (env.set_io_bitmap io_addr len 1, t0 ++ [Event.setIoBitmap io_addr len 1])

/-- `sys_mmap_device_io`, non-x86 branch: unconditionally `NOT_SUPPORTED`,
the resource handle is never consulted. -/
def sys_mmap_device_io_nonx86 (_env : Env) (_hrsrc _io_addr _len : Nat) :
    Int × List Event :=
  (ZX_ERR_NOT_SUPPORTED, [])

/-- `sys_acpi_uefi_rsdp(hrsrc)`, `ARCH_X86` branch; the `uint64_t` return
converts a negative status modulo 2^64. -/
def sys_acpi_uefi_rsdp_x86 (env : Env) (hrsrc : Nat) : Nat × List Event :=
  let status := env.validate_resource hrsrc ZX_RSRC_KIND_ROOT
  let t0 := [Event.validate hrsrc ZX_RSRC_KIND_ROOT]
  if status < 0 then (toU64 status, t0)
  else (env.bootloader_acpi_rsdp, t0)

/-- `sys_acpi_uefi_rsdp(hrsrc)`, non-x86 branch: returns `0` when the
resource validates. -/
def sys_acpi_uefi_rsdp_nonx86 (env : Env) (hrsrc : Nat) : Nat × List Event :=
  let status := env.validate_resource hrsrc ZX_RSRC_KIND_ROOT
  let t0 := [Event.validate hrsrc ZX_RSRC_KIND_ROOT]
  if status < 0 then (toU64 status, t0)
  else (0, t0)

/-! ## Spec-modelled external components

`validate_resource` and the interrupt dispatcher live outside the excerpt
(`object/resources.cpp`, `object/interrupt_event_dispatcher.cpp`); the
syscalls above only see their results.  Where a claim is decided by their
behaviour, we model them from the spec. -/

/-- Modelled from the spec: `validate_resource` (not under `src/`).  §4.1:
the validator resolves the handle and checks the resource kind, a ROOT
resource authorizing any operation; §7 folds every validation failure into
the `PermissionDenied` status ("resource validation failed: wrong kind, out
of range, or handle not a resource at all").  `roots` is the set of handle
values that currently denote a root resource. -/
def validate_resource_model (roots : List Nat) (h kind : Nat) : Int :=
  if h ∈ roots then ZX_OK else ZX_ERR_ACCESS_DENIED

/-- Modelled from the spec: one slot of the Interrupt Dispatcher (§4.3 /
§3), whose implementation is not under `src/`: `{vector, bound,
pending_timestamp}` plus the per-slot `SIGNALED` state bit. -/
structure ISlot where
  vector : Nat
  bound : Bool
  signaled : Bool
  timestamp : Nat

def ISlot.initial : ISlot := ⟨0, false, false, 0⟩

/-- Modelled from the spec: the number of interrupt slots (`slots[MAX_SLOTS]`,
§3); the exact bound is fixed by headers outside the excerpt and only its
positivity matters for the properties proved here. -/
def MAX_SLOTS : Nat := 62

/-- Modelled from the spec: the Interrupt Dispatcher state (§4.3), one slot
record per slot index below `numSlots`. -/
structure InterruptObject where
  numSlots : Nat
  slots : Nat → ISlot

/-- Modelled from the spec: `Create()` "allocates object in IDLE, zero
slots bound". -/
def InterruptObject.create : InterruptObject :=
  ⟨MAX_SLOTS, fun _ => ISlot.initial⟩

/-- Modelled from the spec: `Bind(slot, vector, options)` registers the
vector into the slot; `InvalidArgs` if the slot is out of range or already
bound to a different vector (§4.3). -/
def InterruptObject.bind (o : InterruptObject) (slot vector options : Nat) :
    Int × InterruptObject :=
  if slot < o.numSlots then
    let s := o.slots slot
    if s.bound ∧ s.vector ≠ vector then (ZX_ERR_INVALID_ARGS, o)
    else (ZX_OK, ⟨o.numSlots,
      fun j => if j = slot then { s with vector := vector, bound := true }
               else o.slots j⟩)
  else (ZX_ERR_INVALID_ARGS, o)

/-- Modelled from the spec: `UserSignal(slot, timestamp)` — "identical
effect to a hardware-fired interrupt but with caller-supplied timestamp";
the slot records the timestamp and becomes `SIGNALED`; fails (NotBound)
if the slot is unbound (§4.3). -/
def InterruptObject.userSignal (o : InterruptObject) (slot ts : Nat) :
    Int × InterruptObject :=
  if slot < o.numSlots ∧ (o.slots slot).bound then
    (ZX_OK, ⟨o.numSlots,
      fun j => if j = slot then { o.slots slot with signaled := true, timestamp := ts }
               else o.slots j⟩)
  else (ZX_ERR_NOT_FOUND, o)

/-- Modelled from the spec: scan for the lowest-index slot in `SIGNALED`
state, starting at index `i`. -/
def InterruptObject.findSignaledFrom (o : InterruptObject) (i : Nat) : Option Nat :=
  if h : i < o.numSlots then
    if (o.slots i).signaled then some i else o.findSignaledFrom (i + 1)
  else none
termination_by o.numSlots - i

/-- Modelled from the spec: `WaitForInterruptWithTimeStamp` — "Must return
immediately (no block) if a slot is already SIGNALED at call time", then
"atomically consumes and clears that slot's signal" (§4.3).  `some (slot,
ts)` is immediate return; `none` means the caller would block. -/
def InterruptObject.waitForInterruptWithTimeStamp (o : InterruptObject) :
    Option (Nat × Nat) × InterruptObject :=
  match o.findSignaledFrom 0 with
  | some i =>
      (some (i, (o.slots i).timestamp),
       ⟨o.numSlots, fun j => if j = i then { o.slots i with signaled := false }
                             else o.slots j⟩)
  | none => (none, o)

/-! ## Concrete environments used for counterexamples and witnesses -/

/-- An environment whose resource validator always denies, whose other
external calls all succeed, and whose x86 bootloader supplied no
framebuffer base. -/
def envA : Env where
  validate_resource := fun _ _ => ZX_ERR_ACCESS_DENIED
  validate_resource_mmio := fun _ _ _ => ZX_OK
  get_interrupt_dispatcher := fun _ => ZX_OK
  get_vmo_dispatcher := fun _ => ZX_OK
  interrupt_event_create := ZX_OK
  interrupt_bind := fun _ _ _ _ => ZX_OK
  interrupt_unbind := fun _ _ => ZX_OK
  interrupt_wait := fun _ => (ZX_OK, 0)
  interrupt_wait_ts := fun _ => (ZX_OK, 0, 0)
  interrupt_user_signal := fun _ _ _ => ZX_OK
  vmo_paged_create := fun _ => ZX_OK
  commit_range_contiguous := fun size _ => (ZX_OK, size)
  vmo_physical_create := fun _ _ => ZX_OK
  vmo_dispatcher_create := ZX_OK
  handle_make_ok := true
  map_handle_to_value := 7
  vaddr_to_paddr := fun v => (v : Int)
  udisplay_set_framebuffer_vmo := ZX_OK
  set_io_bitmap := fun _ _ _ => ZX_OK
  bootloader_fb_base := 0
  bootloader_fb_format := 1
  bootloader_fb_width := 2
  bootloader_fb_height := 3
  bootloader_fb_stride := 4
  bootloader_acpi_rsdp := 74565

/-! ## Claims -/

/-- C9: `sys_interrupt_complete` mutates no kernel state: for every handle
value it returns exactly the status of resolving that handle to an
interrupt dispatcher, and its external-call trace is the single read-only
handle-table lookup, so the handle table, every dispatcher and every slot
are left unchanged. -/
theorem C9_interrupt_complete_is_pure_lookup (env : Env) (h : Nat) :
    sys_interrupt_complete env h
      = (env.get_interrupt_dispatcher h, [Event.getDispatcher h])
    ∧ ((sys_interrupt_complete env h).2.all fun e => !e.isMutation) = true :=
  ⟨rfl, rfl⟩

/-- C10: on non-x86 targets `sys_mmap_device_io` returns `NOT_SUPPORTED`
for every input with an empty external-call trace — in particular the
resource handle is never consulted, so an invalid or unprivileged resource
handle still yields `NOT_SUPPORTED`, not `ACCESS_DENIED`. -/
theorem C10_mmap_device_io_nonx86_not_supported (env : Env)
    (hrsrc io_addr len : Nat) :
    sys_mmap_device_io_nonx86 env hrsrc io_addr len = (ZX_ERR_NOT_SUPPORTED, [])
    ∧ ZX_ERR_NOT_SUPPORTED ≠ ZX_ERR_ACCESS_DENIED :=
  ⟨rfl, by decide⟩

/-- C7: interrupt round trip — for every vector `V` and timestamp `T`,
`Create` then `Bind(slot 0, V)` then `UserSignal(slot 0, T)` succeed, and
`WaitForInterruptWithTimeStamp` then returns `(0, T)` immediately (the
wait does not block). -/
theorem C7_interrupt_round_trip (V T : Nat) :
    (InterruptObject.create.bind 0 V 0).1 = ZX_OK
    ∧ ((InterruptObject.create.bind 0 V 0).2.userSignal 0 T).1 = ZX_OK
    ∧ (((InterruptObject.create.bind 0 V 0).2.userSignal 0 T).2.waitForInterruptWithTimeStamp).1
        = some (0, T) := by
  refine ⟨?_, ?_, ?_⟩ <;>
    simp [InterruptObject.create, InterruptObject.bind, InterruptObject.userSignal,
          InterruptObject.waitForInterruptWithTimeStamp, InterruptObject.findSignaledFrom,
          MAX_SLOTS, ISlot.initial]

/-- C6 (counterexample): on x86 with no boot-provided framebuffer base,
`sys_bootloader_fb_get_info` returns `INVALID_ARGS`, not `NOT_SUPPORTED`
as the claim states (it does write none of the four out-values). -/
theorem C6_counterexample :
    (sys_bootloader_fb_get_info_x86 envA 0 0 0 0).1 = ZX_ERR_INVALID_ARGS
    ∧ (sys_bootloader_fb_get_info_x86 envA 0 0 0 0).2 = []
    ∧ ZX_ERR_INVALID_ARGS ≠ ZX_ERR_NOT_SUPPORTED := by
  decide

/-- C6 (amended): when no boot-provided framebuffer exists the query fails
having written none of the four out-values; on x86 with no framebuffer
base the status is `INVALID_ARGS`, while on non-x86 platforms it is
`NOT_SUPPORTED`. -/
theorem C6_fb_get_info_no_framebuffer (env : Env)
    (copy_format copy_width copy_height copy_stride : Int) :
    (env.bootloader_fb_base = 0 →
      sys_bootloader_fb_get_info_x86 env copy_format copy_width copy_height copy_stride
        = (ZX_ERR_INVALID_ARGS, []))
    ∧ sys_bootloader_fb_get_info_nonx86 env = (ZX_ERR_NOT_SUPPORTED, []) := by
  constructor
  · intro h
    simp [sys_bootloader_fb_get_info_x86, h]
  · rfl

/-- C6 (witness): the amended theorem applied to a concrete environment
whose bootloader supplied no framebuffer base. -/
theorem C6_witness :
    sys_bootloader_fb_get_info_x86 envA 0 0 0 0 = (ZX_ERR_INVALID_ARGS, [])
    ∧ sys_bootloader_fb_get_info_nonx86 envA = (ZX_ERR_NOT_SUPPORTED, []) :=
  ⟨(C6_fb_get_info_no_framebuffer envA 0 0 0 0).1 rfl,
   (C6_fb_get_info_no_framebuffer envA 0 0 0 0).2⟩

/-- C2 (counterexample): `sys_interrupt_unbind` does not begin by
validating a resource handle — in an environment whose resource validator
denies every handle, the call still succeeds, and its external-call trace
contains no resource-validation event at all. -/
theorem C2_counterexample :
    envA.validate_resource 3 ZX_RSRC_KIND_ROOT < 0
    ∧ (sys_interrupt_unbind envA 3 0).1 = ZX_OK
    ∧ ((sys_interrupt_unbind envA 3 0).2.all fun e => !e.isValidate) = true := by
  decide

/-- C2 (amended): only `interrupt_create` (once its options check passes)
and `interrupt_bind` begin by validating a resource handle — the
validation event is the first external call, preceding any handle
resolution or dispatcher access; `interrupt_unbind`, `interrupt_complete`,
`interrupt_wait`, `interrupt_wait_with_timestamp` and `interrupt_signal`
perform no resource validation and resolve the target handle directly. -/
theorem C2_validation_create_bind_only (env : Env)
    (hrsrc handle slot vector options ts : Nat)
    (copy_out copy_slots copy_slot copy_ts : Int) (b1 b2 b3 : Bool) :
    (options = 0 →
      (sys_interrupt_create env hrsrc options copy_out).2.head?
        = some (Event.validate hrsrc ZX_RSRC_KIND_ROOT))
    ∧ (sys_interrupt_bind env handle slot hrsrc vector options).2.head?
        = some (Event.validate hrsrc ZX_RSRC_KIND_ROOT)
    ∧ ((sys_interrupt_unbind env handle slot).2.all fun e => !e.isValidate) = true
    ∧ ((sys_interrupt_complete env handle).2.all fun e => !e.isValidate) = true
    ∧ ((sys_interrupt_wait env handle b1 copy_slots).2.all fun e => !e.isValidate) = true
    ∧ ((sys_interrupt_wait_with_timestamp env handle b2 copy_slot b3 copy_ts).2.all
        fun e => !e.isValidate) = true
    ∧ ((sys_interrupt_signal env handle slot ts).2.all fun e => !e.isValidate) = true := by
  refine ⟨?_, ?_, ?_, ?_, ?_, ?_, ?_⟩
  · intro h
    subst h
    simp only [sys_interrupt_create]
    repeat' split
    all_goals simp_all
  · simp only [sys_interrupt_bind]
    repeat' split
    all_goals simp_all
  · simp only [sys_interrupt_unbind]
    repeat' split
    all_goals simp_all [Event.isValidate]
  · simp [sys_interrupt_complete, Event.isValidate]
  · simp only [sys_interrupt_wait]
    repeat' split
    all_goals simp_all [Event.isValidate]
  · simp only [sys_interrupt_wait_with_timestamp]
    repeat' split
    all_goals simp_all [Event.isValidate]
  · simp only [sys_interrupt_signal]
    repeat' split
    all_goals simp_all [Event.isValidate]

/-- C2 (witness): the amended theorem at a concrete environment and
concrete arguments. -/
theorem C2_witness :
    (sys_interrupt_create envA 3 0 0).2.head?
      = some (Event.validate 3 ZX_RSRC_KIND_ROOT)
    ∧ ((sys_interrupt_signal envA 4 0 9).2.all fun e => !e.isValidate) = true :=
  ⟨(C2_validation_create_bind_only envA 3 4 0 5 0 9 0 0 0 0 false false false).1 rfl,
   (C2_validation_create_bind_only envA 3 4 0 5 0 9 0 0 0 0 false false false).2.2.2.2.2.2⟩

/-- An environment whose validator is the spec-modelled resource validator
with handle 5 the only root resource. -/
def envB : Env := { envA with validate_resource := validate_resource_model [5] }

/-- C8: `sys_acpi_uefi_rsdp` under the spec-modelled resource validator —
a handle denoting a root resource yields the platform-supplied ACPI
physical address on x86 and `0` on other platforms; any other handle
yields the `ACCESS_DENIED` (PermissionDenied) status, returned as an
ordinary value through the `uint64_t` return. -/
theorem C8_acpi_uefi_rsdp (env : Env) (roots : List Nat) (h : Nat)
    (henv : env.validate_resource = validate_resource_model roots) :
    (h ∈ roots →
        sys_acpi_uefi_rsdp_x86 env h
          = (env.bootloader_acpi_rsdp, [Event.validate h ZX_RSRC_KIND_ROOT])
      ∧ sys_acpi_uefi_rsdp_nonx86 env h
          = (0, [Event.validate h ZX_RSRC_KIND_ROOT]))
    ∧ (h ∉ roots →
        sys_acpi_uefi_rsdp_x86 env h
          = (toU64 ZX_ERR_ACCESS_DENIED, [Event.validate h ZX_RSRC_KIND_ROOT])
      ∧ sys_acpi_uefi_rsdp_nonx86 env h
          = (toU64 ZX_ERR_ACCESS_DENIED, [Event.validate h ZX_RSRC_KIND_ROOT])) := by
  constructor
  · intro hmem
    constructor <;>
      simp [sys_acpi_uefi_rsdp_x86, sys_acpi_uefi_rsdp_nonx86, henv,
            validate_resource_model, hmem, ZX_OK]
  · intro hmem
    constructor <;>
      simp [sys_acpi_uefi_rsdp_x86, sys_acpi_uefi_rsdp_nonx86, henv,
            validate_resource_model, hmem, ZX_ERR_ACCESS_DENIED]

/-- C8 (witness): the theorem at the concrete environment `envB`, once for
the root handle 5 and once for the non-root handle 6. -/
theorem C8_witness :
    sys_acpi_uefi_rsdp_x86 envB 5
      = (envB.bootloader_acpi_rsdp, [Event.validate 5 ZX_RSRC_KIND_ROOT])
    ∧ sys_acpi_uefi_rsdp_x86 envB 6
      = (toU64 ZX_ERR_ACCESS_DENIED, [Event.validate 6 ZX_RSRC_KIND_ROOT]) :=
  ⟨((C8_acpi_uefi_rsdp envB [5] 5 rfl).1 (by decide)).1,
   ((C8_acpi_uefi_rsdp envB [5] 6 rfl).2 (by decide)).1⟩

/-- An environment in which both validators deny every request and all
other external calls succeed. -/
def envC : Env :=
  { envA with validate_resource_mmio := fun _ _ _ => ZX_ERR_ACCESS_DENIED }

/-- C1: for every syscall in this file that validates a resource, if the
validation call fails (returns a negative status) the syscall returns that
status (for `acpi_uefi_rsdp`, converted through its `uint64_t` return) and
its external-call trace is the validation call alone — so no handle was
created, no slot state changed, no page committed, and no display, IO
bitmap or page-allocator call was issued. -/
theorem C1_validation_failure_has_no_effect (env : Env)
    (hrsrc handle vmoh slot vector options size align paddr len io vaddr
      fmt w hgt st : Nat)
    (copy_out : Int)
    (hval : env.validate_resource hrsrc ZX_RSRC_KIND_ROOT < 0)
    (hmmio : env.validate_resource_mmio hrsrc paddr size < 0)
    (hopts : options = 0)
    (hsz : size ≠ 0)
    (halign : align = 0 ∨ (PAGE_SIZE_SHIFT ≤ align ∧ align < 64)) :
    sys_interrupt_create env hrsrc options copy_out
      = (env.validate_resource hrsrc ZX_RSRC_KIND_ROOT,
         [Event.validate hrsrc ZX_RSRC_KIND_ROOT])
    ∧ sys_interrupt_bind env handle slot hrsrc vector options
      = (env.validate_resource hrsrc ZX_RSRC_KIND_ROOT,
         [Event.validate hrsrc ZX_RSRC_KIND_ROOT])
    ∧ sys_vmo_create_contiguous env hrsrc size align copy_out
      = (env.validate_resource hrsrc ZX_RSRC_KIND_ROOT,
         [Event.validate hrsrc ZX_RSRC_KIND_ROOT])
    ∧ sys_vmo_create_physical env hrsrc paddr size copy_out
      = (env.validate_resource_mmio hrsrc paddr size,
         [Event.validateMmio hrsrc paddr size])
    ∧ sys_set_framebuffer env hrsrc vaddr len fmt w hgt st
      = (env.validate_resource hrsrc ZX_RSRC_KIND_ROOT,
         [Event.validate hrsrc ZX_RSRC_KIND_ROOT])
    ∧ sys_set_framebuffer_vmo env hrsrc vmoh len fmt w hgt st
      = (env.validate_resource hrsrc ZX_RSRC_KIND_ROOT,
         [Event.validate hrsrc ZX_RSRC_KIND_ROOT])
    ∧ sys_mmap_device_io_x86 env hrsrc io len
      = (env.validate_resource hrsrc ZX_RSRC_KIND_ROOT,
         [Event.validate hrsrc ZX_RSRC_KIND_ROOT])
    ∧ sys_acpi_uefi_rsdp_x86 env hrsrc
      = (toU64 (env.validate_resource hrsrc ZX_RSRC_KIND_ROOT),
         [Event.validate hrsrc ZX_RSRC_KIND_ROOT])
    ∧ sys_acpi_uefi_rsdp_nonx86 env hrsrc
      = (toU64 (env.validate_resource hrsrc ZX_RSRC_KIND_ROOT),
         [Event.validate hrsrc ZX_RSRC_KIND_ROOT]) := by
  subst hopts
  refine ⟨?_, ?_, ?_, ?_, ?_, ?_, ?_, ?_, ?_⟩
  · simp [sys_interrupt_create, hval]
  · simp [sys_interrupt_bind, hval]
  · rcases halign with h0 | ⟨hlo, hhi⟩
    · subst h0
      simp [sys_vmo_create_contiguous, hval, hsz, PAGE_SIZE_SHIFT]
    · have hne : align ≠ 0 := by
        simp only [PAGE_SIZE_SHIFT] at hlo
        omega
      have hg : ¬ (align < PAGE_SIZE_SHIFT ∨ 8 * 8 ≤ align) := by
        simp only [PAGE_SIZE_SHIFT] at hlo ⊢
        omega
      simp [sys_vmo_create_contiguous, hval, hsz, hne, hg]
  · simp [sys_vmo_create_physical, hmmio]
  · simp [sys_set_framebuffer, hval]
  · simp [sys_set_framebuffer_vmo, hval]
  · simp [sys_mmap_device_io_x86, hval]
  · simp [sys_acpi_uefi_rsdp_x86, hval]
  · simp [sys_acpi_uefi_rsdp_nonx86, hval]

/-- C1 (witness): the theorem at the always-denying environment `envC` and
concrete arguments. -/
theorem C1_witness :
    sys_interrupt_create envC 3 0 0
      = (ZX_ERR_ACCESS_DENIED, [Event.validate 3 ZX_RSRC_KIND_ROOT])
    ∧ sys_interrupt_bind envC 4 0 3 33 0
      = (ZX_ERR_ACCESS_DENIED, [Event.validate 3 ZX_RSRC_KIND_ROOT])
    ∧ sys_vmo_create_contiguous envC 3 4096 0 0
      = (ZX_ERR_ACCESS_DENIED, [Event.validate 3 ZX_RSRC_KIND_ROOT])
    ∧ sys_vmo_create_physical envC 3 8192 4096 0
      = (ZX_ERR_ACCESS_DENIED, [Event.validateMmio 3 8192 4096])
    ∧ sys_set_framebuffer envC 3 100 200 1 2 3 4
      = (ZX_ERR_ACCESS_DENIED, [Event.validate 3 ZX_RSRC_KIND_ROOT])
    ∧ sys_set_framebuffer_vmo envC 3 9 200 1 2 3 4
      = (ZX_ERR_ACCESS_DENIED, [Event.validate 3 ZX_RSRC_KIND_ROOT])
    ∧ sys_mmap_device_io_x86 envC 3 80 4
      = (ZX_ERR_ACCESS_DENIED, [Event.validate 3 ZX_RSRC_KIND_ROOT])
    ∧ sys_acpi_uefi_rsdp_x86 envC 3
      = (toU64 ZX_ERR_ACCESS_DENIED, [Event.validate 3 ZX_RSRC_KIND_ROOT])
    ∧ sys_acpi_uefi_rsdp_nonx86 envC 3
      = (toU64 ZX_ERR_ACCESS_DENIED, [Event.validate 3 ZX_RSRC_KIND_ROOT]) :=
  C1_validation_failure_has_no_effect envC 3 4 9 0 33 0 4096 0 8192 200 80 100
    1 2 3 4 0 (by decide) (by decide) rfl (by decide) (Or.inl rfl)

/-! ## Arithmetic facts about page rounding -/

theorem roundup_page_ge (n : Nat) : n ≤ ROUNDUP_PAGE_SIZE n := by
  unfold ROUNDUP_PAGE_SIZE PAGE_SIZE
  omega

theorem roundup_page_mod (n : Nat) : ROUNDUP_PAGE_SIZE n % PAGE_SIZE = 0 := by
  unfold ROUNDUP_PAGE_SIZE PAGE_SIZE
  omega

theorem roundup_page_lt (n : Nat) : ROUNDUP_PAGE_SIZE n < n + PAGE_SIZE := by
  unfold ROUNDUP_PAGE_SIZE PAGE_SIZE
  omega

/-- C4: `sys_vmo_create_contiguous` argument checks — size 0 fails
`INVALID_ARGS`; alignment 0 is treated as page-size alignment (the call
behaves exactly as with `PAGE_SIZE_SHIFT`); a nonzero alignment below the
page-size shift, or one of 64 or more, fails `INVALID_ARGS`; otherwise the
allocation is invoked with the size rounded up to page granularity
(a page multiple at least as large as the request) right after
validation. -/
theorem C4_contiguous_argument_checks (env : Env) (hrsrc size align : Nat)
    (copy_out : Int) :
    (size = 0 →
      sys_vmo_create_contiguous env hrsrc size align copy_out
        = (ZX_ERR_INVALID_ARGS, []))
    ∧ sys_vmo_create_contiguous env hrsrc size 0 copy_out
        = sys_vmo_create_contiguous env hrsrc size PAGE_SIZE_SHIFT copy_out
    ∧ (align ≠ 0 → align < PAGE_SIZE_SHIFT →
        sys_vmo_create_contiguous env hrsrc size align copy_out
          = (ZX_ERR_INVALID_ARGS, []))
    ∧ (64 ≤ align →
        sys_vmo_create_contiguous env hrsrc size align copy_out
          = (ZX_ERR_INVALID_ARGS, []))
    ∧ (size ≠ 0 → PAGE_SIZE_SHIFT ≤ align → align < 64 →
        ¬ env.validate_resource hrsrc ZX_RSRC_KIND_ROOT < 0 →
        (sys_vmo_create_contiguous env hrsrc size align copy_out).2.take 2
          = [Event.validate hrsrc ZX_RSRC_KIND_ROOT,
             Event.vmoPagedCreate (ROUNDUP_PAGE_SIZE size)]
        ∧ size ≤ ROUNDUP_PAGE_SIZE size
        ∧ ROUNDUP_PAGE_SIZE size % PAGE_SIZE = 0) := by
  refine ⟨?_, ?_, ?_, ?_, ?_⟩
  · intro h
    simp [sys_vmo_create_contiguous, h]
  · simp [sys_vmo_create_contiguous, PAGE_SIZE_SHIFT]
  · intro h1 h2
    by_cases hs : size = 0
    · simp [sys_vmo_create_contiguous, hs]
    · simp [sys_vmo_create_contiguous, hs, h1, h2]
  · intro h64
    have h1 : align ≠ 0 := by omega
    by_cases hs : size = 0
    · simp [sys_vmo_create_contiguous, hs]
    · have hg : align < PAGE_SIZE_SHIFT ∨ 8 * 8 ≤ align := Or.inr (by omega)
      simp [sys_vmo_create_contiguous, hs, h1, hg]
  · intro hs hlo hhi hv
    have hne : align ≠ 0 := by
      simp only [PAGE_SIZE_SHIFT] at hlo
      omega
    have hg : ¬ (align < PAGE_SIZE_SHIFT ∨ 8 * 8 ≤ align) := by
      simp only [PAGE_SIZE_SHIFT] at hlo ⊢
      omega
    refine ⟨?_, roundup_page_ge size, roundup_page_mod size⟩
    simp only [sys_vmo_create_contiguous, hs, hne, hg, hv]
    simp only [if_neg hs, ite_false, if_neg hg, if_neg hv]
    repeat' split
    all_goals simp_all

/-- C4 (witness): the theorem's branches at a concrete environment whose
validator accepts handle 5, with a 3-page request. -/
theorem C4_witness :
    sys_vmo_create_contiguous envB 5 0 12 0 = (ZX_ERR_INVALID_ARGS, [])
    ∧ sys_vmo_create_contiguous envB 5 12288 11 0 = (ZX_ERR_INVALID_ARGS, [])
    ∧ sys_vmo_create_contiguous envB 5 12288 64 0 = (ZX_ERR_INVALID_ARGS, [])
    ∧ (sys_vmo_create_contiguous envB 5 12288 12 0).2.take 2
        = [Event.validate 5 ZX_RSRC_KIND_ROOT, Event.vmoPagedCreate 12288]
    ∧ 12288 ≤ ROUNDUP_PAGE_SIZE 12288
    ∧ ROUNDUP_PAGE_SIZE 12288 % PAGE_SIZE = 0 :=
  ⟨(C4_contiguous_argument_checks envB 5 0 12 0).1 rfl,
   (C4_contiguous_argument_checks envB 5 12288 11 0).2.2.1 (by decide) (by decide),
   (C4_contiguous_argument_checks envB 5 12288 64 0).2.2.2.1 (by decide),
   ((C4_contiguous_argument_checks envB 5 12288 12 0).2.2.2.2 (by decide)
      (by decide) (by decide) (by decide)).1,
   ((C4_contiguous_argument_checks envB 5 12288 12 0).2.2.2.2 (by decide)
      (by decide) (by decide) (by decide)).2.1,
   ((C4_contiguous_argument_checks envB 5 12288 12 0).2.2.2.2 (by decide)
      (by decide) (by decide) (by decide)).2.2⟩

/-- An environment whose validator accepts handle 5, but whose contiguous
page commit always commits 0 bytes. -/
def envD : Env := { envB with commit_range_contiguous := fun _ _ => (ZX_OK, 0) }

/-- C5: in `sys_vmo_create_contiguous`, if the eager contiguous commit
fails or commits fewer bytes than the rounded-up requested size, the call
returns `NO_MEMORY` — never partial success — and its trace ends at the
commit: no handle is made or installed and no out-value written, so the
partially allocated pages are never exposed through a handle (the dropped
VM object reclaims them). -/
theorem C5_commit_shortfall_is_no_memory (env : Env) (hrsrc size align : Nat)
    (copy_out cs : Int) (committed : Nat)
    (hs : size ≠ 0) (hlo : PAGE_SIZE_SHIFT ≤ align) (hhi : align < 64)
    (hv : ¬ env.validate_resource hrsrc ZX_RSRC_KIND_ROOT < 0)
    (hcr : env.vmo_paged_create (ROUNDUP_PAGE_SIZE size) = ZX_OK)
    (hcm : env.commit_range_contiguous (ROUNDUP_PAGE_SIZE size) align
             = (cs, committed))
    (hshort : cs < 0 ∨ committed < ROUNDUP_PAGE_SIZE size) :
    sys_vmo_create_contiguous env hrsrc size align copy_out
      = (ZX_ERR_NO_MEMORY,
         [Event.validate hrsrc ZX_RSRC_KIND_ROOT,
          Event.vmoPagedCreate (ROUNDUP_PAGE_SIZE size),
          Event.commitContiguous (ROUNDUP_PAGE_SIZE size) align])
    ∧ ((sys_vmo_create_contiguous env hrsrc size align copy_out).2.all
        fun e => !e.isHandleCreation) = true := by
  have hne : align ≠ 0 := by
    simp only [PAGE_SIZE_SHIFT] at hlo
    omega
  have hg : ¬ (align < PAGE_SIZE_SHIFT ∨ 8 * 8 ≤ align) := by
    simp only [PAGE_SIZE_SHIFT] at hlo ⊢
    omega
  have hm : align % 256 = align := Nat.mod_eq_of_lt (by omega)
  have heq : sys_vmo_create_contiguous env hrsrc size align copy_out
      = (ZX_ERR_NO_MEMORY,
         [Event.validate hrsrc ZX_RSRC_KIND_ROOT,
          Event.vmoPagedCreate (ROUNDUP_PAGE_SIZE size),
          Event.commitContiguous (ROUNDUP_PAGE_SIZE size) align]) := by
    simp [sys_vmo_create_contiguous, hs, hne, hg, hv, hm, hcr, hcm, hshort]
  refine ⟨heq, ?_⟩
  rw [heq]
  simp [Event.isHandleCreation]

/-- C5 (witness): the theorem at `envD`, whose commit reports 0 committed
bytes for a 3-page request. -/
theorem C5_witness :
    sys_vmo_create_contiguous envD 5 12288 12 0
      = (ZX_ERR_NO_MEMORY,
         [Event.validate 5 ZX_RSRC_KIND_ROOT, Event.vmoPagedCreate 12288,
          Event.commitContiguous 12288 12])
    ∧ ((sys_vmo_create_contiguous envD 5 12288 12 0).2.all
        fun e => !e.isHandleCreation) = true :=
  C5_commit_shortfall_is_no_memory envD 5 12288 12 0 0 0 (by decide) (by decide)
    (by decide) (by decide) rfl rfl (Or.inr (by decide))

/-- C3 (counterexample): `sys_vmo_create_physical` with a 1-byte request —
the validator is asked about exactly `[4096, 4097)` (size 1), but the VM
object wraps `[4096, 8192)` (size 4096): the wrapped range is enlarged
beyond the validated one. -/
theorem C3_counterexample :
    (sys_vmo_create_physical envA 3 4096 1 0).2
      = [Event.validateMmio 3 4096 1, Event.vmoPhysCreate 4096 4096,
         Event.vmoDispCreate, Event.handleMake, Event.copyOut 7,
         Event.addHandle 7]
    ∧ (1 : Nat) < 4096 := by
  decide

/-- C3 (amended): the validator is consulted first with exactly the
caller-requested `(base, size)`; on success the VM object wraps the range
`[base, base + roundup_page(size))` — the size is rounded up to page
granularity after validation, so the wrapped range covers the validated
one and may extend beyond it by less than one page; no call into the page
allocator ever occurs. -/
theorem C3_create_physical_wraps_rounded_range (env : Env)
    (hrsrc paddr size : Nat) (copy_out : Int) :
    (sys_vmo_create_physical env hrsrc paddr size copy_out).2.head?
      = some (Event.validateMmio hrsrc paddr size)
    ∧ (¬ env.validate_resource_mmio hrsrc paddr size < 0 →
        (sys_vmo_create_physical env hrsrc paddr size copy_out).2.take 2
          = [Event.validateMmio hrsrc paddr size,
             Event.vmoPhysCreate paddr (ROUNDUP_PAGE_SIZE size)])
    ∧ ((sys_vmo_create_physical env hrsrc paddr size copy_out).2.all
        fun e => !e.isPageAlloc) = true
    ∧ size ≤ ROUNDUP_PAGE_SIZE size
    ∧ ROUNDUP_PAGE_SIZE size < size + PAGE_SIZE := by
  refine ⟨?_, ?_, ?_, roundup_page_ge size, roundup_page_lt size⟩
  · simp only [sys_vmo_create_physical]
    repeat' split
    all_goals simp_all
  · intro hv
    simp only [sys_vmo_create_physical, if_neg hv]
    repeat' split
    all_goals simp_all
  · simp only [sys_vmo_create_physical]
    repeat' split
    all_goals simp_all [Event.isPageAlloc]

/-- C3 (witness): the amended theorem at the concrete 1-byte request used
by the counterexample. -/
theorem C3_witness :
    (sys_vmo_create_physical envA 3 4096 1 0).2.head?
      = some (Event.validateMmio 3 4096 1)
    ∧ (sys_vmo_create_physical envA 3 4096 1 0).2.take 2
      = [Event.validateMmio 3 4096 1, Event.vmoPhysCreate 4096 4096]
    ∧ ((sys_vmo_create_physical envA 3 4096 1 0).2.all
        fun e => !e.isPageAlloc) = true :=
  ⟨(C3_create_physical_wraps_rounded_range envA 3 4096 1 0).1,
   (C3_create_physical_wraps_rounded_range envA 3 4096 1 0).2.1 (by decide),
   (C3_create_physical_wraps_rounded_range envA 3 4096 1 0).2.2.1⟩

end Zircon
